import Mathlib

/-!
Verification of the Dgraph persistence adapter (src/packages/dgraph/src/index.ts).

The adapter maps the auth data model (User, Account, Session, VerificationToken)
onto a GraphQL backend.  Each operation builds a query/mutation document from
overridable fragments, applies an optional per-operation input transformer,
sends the request through a transport, and normalizes the response.

The embedding below models runtime JavaScript values as a JSON-like inductive
type `Value`.  JavaScript-specific behaviour that the source relies on is made
explicit: nullish checks (`null`/`undefined`), truthiness, property access that
throws a TypeError on a nullish base, optional chaining that yields `undefined`
instead, rest-destructuring, spread, and the `??` operator used by the
transformer hook.  A thrown TypeError or a rejected transport promise is an
`Except.error`; a resolved operation is `Except.ok`.

Each adapter operation becomes a function from the fragment configuration, the
transformer configuration, a transport, and the operation's argument to the
list of requests it sent together with its outcome.
-/

namespace Dgraph

/-- Runtime values: scalars, arrays and string-keyed objects, plus the two
JavaScript empty values (`undefined` and `null`), backend date-like values
(`date`) and the caller-side date representation the formatter produces
(`dateObj`). -/
inductive Value where
  | undefined : Value
  | null : Value
  | bool : Bool → Value
  | num : Int → Value
  | str : String → Value
  | date : Int → Value
  | dateObj : Int → Value
  | arr : List Value → Value
  | obj : List (String × Value) → Value

/-- A value is nullish when it is JavaScript `null` or `undefined`. -/
def nullish : Value → Bool
  | .null => true
  | .undefined => true
  | .bool _ => false
  | .num _ => false
  | .str _ => false
  | .date _ => false
  | .dateObj _ => false
  | .arr _ => false
  | .obj _ => false

/-- JavaScript truthiness of a value. -/
def truthy : Value → Bool
  | .null => false
  | .undefined => false
  | .bool b => b
  | .num n => n != 0
  | .str s => s != ""
  | .date _ => true
  | .dateObj _ => true
  | .arr _ => true
  | .obj _ => true

/-- First binding of a key in an object's field list. -/
def lookupField : List (String × Value) → String → Option Value
  | [], _ => none
  | (k0, v) :: fs, k => cond (k0 == k) (some v) (lookupField fs k)

/-- Total property access: a missing field, or access on a non-object that is
not nullish, yields `undefined` (callers guard the nullish case). -/
def getField : Value → String → Value
  | .obj fs, k => (lookupField fs k).getD (.undefined)
  | _, _ => .undefined

/-- Message of the TypeError raised by property access on a nullish base. -/
def jsTypeError : String := "TypeError"

/-- Property access `v.k` as the source uses it without optional chaining:
throws a TypeError when the base is nullish. -/
def getF (v : Value) (k : String) : Except String Value :=
  cond (nullish v) (.error jsTypeError) (.ok (getField v k))

/-- Optional chaining `v?.k`: `undefined` on a nullish base, no throw. -/
def optChain (v : Value) (k : String) : Value :=
  cond (nullish v) (.undefined) (getField v k)

/-- Index access `v[i]`: throws on a nullish base, out-of-range on an array
yields `undefined`, and any other base yields `undefined`. -/
def idx (v : Value) (i : Nat) : Except String Value :=
  cond (nullish v) (.error jsTypeError)
    (match v with
     | .arr xs => .ok (xs.getD i (.undefined))
     | _ => .ok (.undefined))

/-- The whole chain `v?.k[i]`: short-circuits to `undefined` when `v` is
nullish, otherwise indexes `v.k` (which throws when `v.k` is nullish). -/
def optChainIdx (v : Value) (k : String) (i : Nat) : Except String Value :=
  cond (nullish v) (.ok (.undefined)) (idx (getField v k) i)

/-- Chain `v.k[i]` with no optional chaining anywhere. -/
def fieldIdx (v : Value) (k : String) (i : Nat) : Except String Value :=
  match getF v k with
  | .error e => .error e
  | .ok a => idx a i

/-- Array destructuring `const [x] = v`: head of an array (or `undefined` when
empty); any non-array is not iterable and throws. -/
def iterHead : Value → Except String Value
  | .arr xs => .ok (xs.headD (.undefined))
  | _ => .error jsTypeError

/-- Field list with every binding of a key removed (rest-destructuring). -/
def eraseField : List (String × Value) → String → List (String × Value)
  | [], _ => []
  | (k0, v) :: fs, k => cond (k0 == k) (eraseField fs k) ((k0, v) :: eraseField fs k)

/-- Rest-destructuring `const \x7b k, ...rest \x7d = v`: the object without the
named field; the rest of a non-object is the empty object. -/
def removeField : Value → String → Value
  | .obj fs, k => .obj (eraseField fs k)
  | _, _ => .obj []

/-- Update-or-append of a key, preserving the original field position as the
JavaScript spread `\x7b ...a, k: v \x7d` does. -/
def upsert : List (String × Value) → String → Value → List (String × Value)
  | [], k, v => [(k, v)]
  | (k0, v0) :: fs, k, v => cond (k0 == k) ((k, v) :: fs) ((k0, v0) :: upsert fs k v)

/-- Spread-update `\x7b ...a, k: v \x7d` on an object. -/
def setField : Value → String → Value → Value
  | .obj fs, k, v => .obj (upsert fs k v)
  | _, k, v => .obj [(k, v)]

/-- Backend date-like values become the caller's date representation; all other
values pass through unchanged. -/
def dateConv : Value → Value
  | .date n => .dateObj n
  | v => v

/-- Modelled from the spec: the result formatter `format.from` of `./utils`,
which is part of this repository but not under src/.  Per the spec it converts
backend date-like field values to the caller's date representation, passes all
other fields through unchanged, and returns `null` unchanged when the input is
`null` or absent, signalling "not found". -/
def formatFrom : Value → Value
  | .obj fs => .obj (fs.map (fun kv => (kv.1, dateConv kv.2)))
  | _ => .null

/-- Per-entity field-selection fragments spliced into the documents. -/
structure Fragments where
  User : String
  Account : String
  Session : String
  VerificationToken : String

/-- Construction-time fragment overrides (`options.fragments`). -/
structure FragmentOverrides where
  User : Option String
  Account : Option String
  Session : Option String
  VerificationToken : Option String

/-- Modelled from the spec: the default fragment strings of
`./graphql/fragments`, which are part of this repository but not under src/.
Per the spec they cover each entity's fields. -/
def defaultUserFragment : String :=
  "fragment UserFragment on User \x7b id name email emailVerified image \x7d"

/-- Modelled from the spec: default Account fragment, see `defaultUserFragment`. -/
def defaultAccountFragment : String :=
  "fragment AccountFragment on Account \x7b id type provider providerAccountId user \x7b id \x7d \x7d"

/-- Modelled from the spec: default Session fragment, see `defaultUserFragment`. -/
def defaultSessionFragment : String :=
  "fragment SessionFragment on Session \x7b id sessionToken expires \x7d"

/-- Modelled from the spec: default VerificationToken fragment, see
`defaultUserFragment`. -/
def defaultVerificationTokenFragment : String :=
  "fragment VerificationTokenFragment on VerificationToken \x7b identifier token expires \x7d"

/-- The default fragment set `defaultFragments` imported by the adapter. -/
def defaultFragments : Fragments :=
  ⟨defaultUserFragment, defaultAccountFragment, defaultSessionFragment,
   defaultVerificationTokenFragment⟩

/-- The construction-time merge `\x7b ...defaultFragments, ...options?.fragments \x7d`
performed by `DgraphAdapter`. -/
def mergedFragments (o : FragmentOverrides) : Fragments :=
  ⟨o.User.getD (defaultFragments.User),
   o.Account.getD (defaultFragments.Account),
   o.Session.getD (defaultFragments.Session),
   o.VerificationToken.getD (defaultFragments.VerificationToken)⟩

/-- Per-operation optional input transformers (`options.transformers`), one
field per adapter operation, as the source's `Partial` record. -/
structure Transformers where
  createUser : Option (Value → Value)
  getUser : Option (Value → Value)
  getUserByEmail : Option (Value → Value)
  getUserByAccount : Option (Value → Value)
  updateUser : Option (Value → Value)
  deleteUser : Option (Value → Value)
  linkAccount : Option (Value → Value)
  unlinkAccount : Option (Value → Value)
  getSessionAndUser : Option (Value → Value)
  createSession : Option (Value → Value)
  updateSession : Option (Value → Value)
  deleteSession : Option (Value → Value)
  createVerificationToken : Option (Value → Value)
  useVerificationToken : Option (Value → Value)

/-- The configuration with no transformer installed for any operation. -/
def noTransformers : Transformers :=
  ⟨none, none, none, none, none, none, none, none, none, none, none, none, none, none⟩

/-- The adapter's `change` helper:
`options?.transformers?.[func]?.(x) ?? x` — apply the operation's transformer
when present, falling back to the untouched input when the transformer is
absent or returns a nullish value. -/
def change : Option (Value → Value) → Value → Value
  | none, x => x
  | some f, x => cond (nullish (f x)) x (f x)

/-- A request sent through the transport: the query/mutation document and its
variables. -/
structure Request where
  doc : String
  vars : Value

/-- The transport (`c.run`): one request in, parsed JSON out, or a rejection.
The adapter's use of the responses shows `run` resolves with the payload of the
single root field of the document. -/
abbrev Transport := Request → Except String Value

/-- What an operation call produces: the requests it sent, in order, and its
outcome (resolved value or rejection). -/
abbrev OpResult := List Request × Except String Value

/-- One request/response cycle: send the document with its variables, reject if
the transport rejects, otherwise post-process the response. -/
def singleOp (doc : String) (vars : Value) (run : Transport)
    (post : Value → Except String Value) : OpResult :=
  match run (Request.mk doc vars) with
  | .error e => ([Request.mk doc vars], .error e)
  | .ok r => ([Request.mk doc vars], post r)

/-! GraphQL documents of the operations, verbatim from the source with
whitespace collapsed; `\x7b`/`\x7d` are the literal braces of the documents.
Fragments are appended exactly where the source splices them. -/

/-- Document of `createUser`. -/
def createUserDoc (u : String) : String :=
  "mutation ($input: [AddUserInput!]!) \x7b addUser(input: $input) \x7b user \x7b ...UserFragment \x7d \x7d \x7d " ++ u

/-- Document of `getUser`. -/
def getUserDoc (u : String) : String :=
  "query ($id: ID!) \x7b getUser(id: $id) \x7b ...UserFragment \x7d \x7d " ++ u

/-- Document of `getUserByEmail`. -/
def getUserByEmailDoc (u : String) : String :=
  "query ($email: String = \"\") \x7b queryUser(filter: \x7b email: \x7b eq: $email \x7d \x7d) \x7b ...UserFragment \x7d \x7d " ++ u

/-- Document of `getUserByAccount`. -/
def getUserByAccountDoc (u : String) : String :=
  "query ($providerAccountId: String = \"\", $provider: String = \"\") \x7b queryAccount(filter: \x7b and: \x7b providerAccountId: \x7b eq: $providerAccountId \x7d provider: \x7b eq: $provider \x7d \x7d \x7d) \x7b user \x7b ...UserFragment \x7d id \x7d \x7d " ++ u

/-- Document of `updateUser`. -/
def updateUserDoc (u : String) : String :=
  "mutation ($id: [ID!] = \"\", $input: UserPatch) \x7b updateUser(input: \x7b filter: \x7b id: $id \x7d, set: $input \x7d) \x7b user \x7b ...UserFragment \x7d \x7d \x7d " ++ u

/-- Document of the first `deleteUser` request: delete the user and request the
owned Account and Session identifiers back. -/
def deleteUserDoc : String :=
  "mutation ($id: [ID!] = \"\") \x7b deleteUser(filter: \x7b id: $id \x7d) \x7b numUids user \x7b accounts \x7b id \x7d sessions \x7b id \x7d \x7d \x7d \x7d"

/-- Document of the second `deleteUser` request: the cascade deleting the
captured Accounts and Sessions. -/
def deleteCascadeDoc : String :=
  "mutation ($accounts: [ID!], $sessions: [ID!]) \x7b deleteAccount(filter: \x7b id: $accounts \x7d) \x7b numUids \x7d deleteSession(filter: \x7b id: $sessions \x7d) \x7b numUids \x7d \x7d"

/-- Document of `linkAccount`. -/
def linkAccountDoc (a : String) : String :=
  "mutation ($input: [AddAccountInput!]!) \x7b addAccount(input: $input) \x7b account \x7b ...AccountFragment \x7d \x7d \x7d " ++ a

/-- Document of `unlinkAccount`. -/
def unlinkAccountDoc : String :=
  "mutation ($providerAccountId: String = \"\", $provider: String = \"\") \x7b deleteAccount(filter: \x7b and: \x7b providerAccountId: \x7b eq: $providerAccountId \x7d provider: \x7b eq: $provider \x7d \x7d \x7d) \x7b numUids \x7d \x7d"

/-- Document of `getSessionAndUser`. -/
def getSessionAndUserDoc (u s : String) : String :=
  "query ($sessionToken: String = \"\") \x7b querySession(filter: \x7b sessionToken: \x7b eq: $sessionToken \x7d \x7d) \x7b ...SessionFragment user \x7b ...UserFragment \x7d \x7d \x7d " ++ u ++ " " ++ s

/-- Document of `createSession`. -/
def createSessionDoc (s : String) : String :=
  "mutation ($input: [AddSessionInput!]!) \x7b addSession(input: $input) \x7b session \x7b ...SessionFragment \x7d \x7d \x7d " ++ s

/-- Document of `updateSession`. -/
def updateSessionDoc (s : String) : String :=
  "mutation ($input: SessionPatch = \x7b\x7d, $sessionToken: String) \x7b updateSession(input: \x7b filter: \x7b sessionToken: \x7b eq: $sessionToken \x7d \x7d set: $input \x7d) \x7b session \x7b ...SessionFragment user \x7b id \x7d \x7d \x7d \x7d " ++ s

/-- Document of `deleteSession`. -/
def deleteSessionDoc : String :=
  "mutation ($sessionToken: String = \"\") \x7b deleteSession(filter: \x7b sessionToken: \x7b eq: $sessionToken \x7d \x7d) \x7b numUids \x7d \x7d"

/-- Document of `createVerificationToken`. -/
def createVerificationTokenDoc : String :=
  "mutation ($input: [AddVerificationTokenInput!]!) \x7b addVerificationToken(input: $input) \x7b numUids \x7d \x7d"

/-- Document of `useVerificationToken`. -/
def useVerificationTokenDoc (v : String) : String :=
  "mutation ($token: String = \"\", $identifier: String = \"\") \x7b deleteVerificationToken(filter: \x7b and: \x7b token: \x7b eq: $token \x7d identifier: \x7b eq: $identifier \x7d \x7d \x7d) \x7b verificationToken \x7b ...VerificationTokenFragment \x7d \x7d \x7d " ++ v

/-! The sixteen-operation surface, translated operation by operation. -/

/-- `createUser(input)`: add-user mutation; resolves with the formatted first
created record `result?.user[0]`. -/
def createUser (fr : Fragments) (tf : Transformers) (run : Transport) (input : Value) : OpResult :=
  singleOp (createUserDoc (fr.User))
    (.obj [(("input"), change (tf.createUser) input)]) run
    (fun result =>
      match optChainIdx result ("user") 0 with
      | .error e => .error e
      | .ok u => .ok (formatFrom u))

/-- `getUser(id)`: lookup by id; resolves with the formatted response. -/
def getUser (fr : Fragments) (tf : Transformers) (run : Transport) (id : Value) : OpResult :=
  singleOp (getUserDoc (fr.User))
    (.obj [(("id"), change (tf.getUser) id)]) run
    (fun result => .ok (formatFrom result))

/-- `getUserByEmail(email)`: query by email equality; destructures the first
element of the response list and resolves with it formatted. -/
def getUserByEmail (fr : Fragments) (tf : Transformers) (run : Transport) (email : Value) : OpResult :=
  singleOp (getUserByEmailDoc (fr.User))
    (.obj [(("email"), change (tf.getUserByEmail) email)]) run
    (fun resp =>
      match iterHead resp with
      | .error e => .error e
      | .ok user => .ok (formatFrom user))

/-- `getUserByAccount(\x7bprovider, providerAccountId\x7d)`: query accounts and
resolve with the formatted owning user `format.from(account?.user)`. -/
def getUserByAccount (fr : Fragments) (tf : Transformers) (run : Transport) (arg : Value) : OpResult :=
  singleOp (getUserByAccountDoc (fr.User))
    (change (tf.getUserByAccount) arg) run
    (fun resp =>
      match iterHead resp with
      | .error e => .error e
      | .ok account => .ok (formatFrom (optChain account ("user"))))

/-- `updateUser(\x7bid, ...input\x7d)`: patch by id; resolves with the formatted
`result.user[0]`.  Destructuring the argument throws when it is nullish. -/
def updateUser (fr : Fragments) (tf : Transformers) (run : Transport) (arg : Value) : OpResult :=
  cond (nullish arg) ([], .error jsTypeError)
    (singleOp (updateUserDoc (fr.User))
      (change (tf.updateUser)
        (.obj [(("id"), getField arg ("id")), (("input"), removeField arg ("id"))])) run
      (fun result =>
        match fieldIdx result ("user") 0 with
        | .error e => .error e
        | .ok u => .ok (formatFrom u)))

/-- Step of `deleteUser`: `format.from(result.user[0])`, plain accesses that
throw on a nullish base. -/
def duUser (result : Value) : Except String Value :=
  match getF result ("user") with
  | .error e => .error e
  | .ok uarr =>
    match idx uarr 0 with
    | .error e => .error e
    | .ok u0 => .ok (formatFrom u0)

/-- `xs.map(x => x.id)` over the elements of a captured relation list. -/
def mapIds : List Value → Except String (List Value)
  | [] => .ok []
  | x :: xs =>
    match getF x ("id") with
    | .error e => .error e
    | .ok v =>
      match mapIds xs with
      | .error e => .error e
      | .ok vs => .ok (v :: vs)

/-- `v.map(x => x.id)`: only an array has `.map`; anything else throws. -/
def mapIdArr : Value → Except String Value
  | .arr xs =>
    (match mapIds xs with
     | .error e => .error e
     | .ok vs => .ok (.arr vs))
  | _ => .error jsTypeError

/-- Variables of the cascade request, in the source's evaluation order:
`\x7b sessions: deletedUser.sessions.map(x => x.id), accounts: deletedUser.accounts.map(x => x.id) \x7d`. -/
def duCascadeVars (du : Value) : Except String Value :=
  match getF du ("sessions") with
  | .error e => .error e
  | .ok sv =>
    match mapIdArr sv with
    | .error e => .error e
    | .ok sIds =>
      match getF du ("accounts") with
      | .error e => .error e
      | .ok av =>
        match mapIdArr av with
        | .error e => .error e
        | .ok aIds => .ok (.obj [(("sessions"), sIds), (("accounts"), aIds)])

/-- `deleteUser(id)`: two sequential requests.  The first deletes the user and
captures the owned Account and Session ids; the second deletes those records.
Both requests are awaited, so a rejection of either propagates; the second
request's resolved value is discarded and the formatted user from the first
response is returned. -/
def deleteUser (_fr : Fragments) (tf : Transformers) (run : Transport) (id : Value) : OpResult :=
  let req1 := Request.mk deleteUserDoc (.obj [(("id"), change (tf.deleteUser) id)])
  match run req1 with
  | .error e => ([req1], .error e)
  | .ok result =>
    match duUser result with
    | .error e => ([req1], .error e)
    | .ok du =>
      match duCascadeVars du with
      | .error e => ([req1], .error e)
      | .ok v2 =>
        let req2 := Request.mk deleteCascadeDoc v2
        match run req2 with
        | .error e => ([req1, req2], .error e)
        | .ok _ => ([req1, req2], .ok du)

/-- `\x7b ...input, user: \x7b id: userId \x7d \x7d` after destructuring
`\x7b userId, ...input \x7d` from the argument: the userId field replaced by a
user relation. -/
def injectUser (v : Value) : Value :=
  setField (removeField v ("userId")) ("user") (.obj [(("id"), getField v ("userId"))])

/-- `linkAccount(data)`: add-account mutation whose input is the argument with
`userId` replaced by the `user` relation; resolves with the original argument,
not the server response.  Destructuring throws on a nullish argument. -/
def linkAccount (fr : Fragments) (tf : Transformers) (run : Transport) (data : Value) : OpResult :=
  cond (nullish data) ([], .error jsTypeError)
    (singleOp (linkAccountDoc (fr.Account))
      (.obj [(("input"), change (tf.linkAccount) (injectUser data))]) run
      (fun _ => .ok data))

/-- `unlinkAccount(\x7bprovider, providerAccountId\x7d)`: delete mutation, no
resolved value. -/
def unlinkAccount (_fr : Fragments) (tf : Transformers) (run : Transport) (arg : Value) : OpResult :=
  singleOp unlinkAccountDoc (change (tf.unlinkAccount) arg) run
    (fun _ => .ok (.undefined))

/-- Join step of `getSessionAndUser` on the matched record: `null` when the
record is falsy; otherwise split off the `user` field and resolve with
`\x7b user, session \x7d` where the session carries `userId: user.id` — a plain
access that throws when the joined user is nullish. -/
def gsuJoin (sAndU : Value) : Except String Value :=
  cond (truthy sAndU)
    (match getF (getField sAndU ("user")) ("id") with
     | .error e => .error e
     | .ok uid =>
       .ok (.obj
         [(("user"), formatFrom (getField sAndU ("user"))),
          (("session"), setField (formatFrom (removeField sAndU ("user"))) ("userId") uid)]))
    (.ok (.null))

/-- `getSessionAndUser(sessionToken)`: query sessions with the joined user,
destructure the first match, and join. -/
def getSessionAndUser (fr : Fragments) (tf : Transformers) (run : Transport) (sessionToken : Value) : OpResult :=
  singleOp (getSessionAndUserDoc (fr.User) (fr.Session))
    (.obj [(("sessionToken"), change (tf.getSessionAndUser) sessionToken)]) run
    (fun resp =>
      match iterHead resp with
      | .error e => .error e
      | .ok sAndU => gsuJoin sAndU)

/-- The value `createSession` destructures: the configured transformer applied
to the argument when present, else the argument itself. -/
def csPre (tf : Transformers) (data : Value) : Value :=
  match tf.createSession with
  | some f => f data
  | none => data

/-- `createSession(data)`: destructures the (possibly transformed) argument,
injects the user relation, applies `change` (the transformer again, when
configured) to the payload, and resolves with the original argument `data`. -/
def createSession (fr : Fragments) (tf : Transformers) (run : Transport) (data : Value) : OpResult :=
  cond (nullish (csPre tf data)) ([], .error jsTypeError)
    (singleOp (createSessionDoc (fr.Session))
      (.obj [(("input"), change (tf.createSession) (injectUser (csPre tf data)))]) run
      (fun _ => .ok data))

/-- Join step of `updateSession` on the formatted updated record: `null` unless
`session?.user?.id` is truthy, else the session with `userId: session.user.id`
spread in. -/
def usJoin (s0 : Value) : Except String Value :=
  cond (truthy (optChain (optChain (formatFrom s0) ("user")) ("id")))
    (.ok (setField (formatFrom s0) ("userId")
      (getField (getField (formatFrom s0) ("user")) ("id"))))
    (.ok (.null))

/-- `updateSession(\x7bsessionToken, ...input\x7d)`: patch by sessionToken;
resolves with the joined `result.session[0]`.  Destructuring the argument
throws when it is nullish. -/
def updateSession (fr : Fragments) (tf : Transformers) (run : Transport) (arg : Value) : OpResult :=
  cond (nullish arg) ([], .error jsTypeError)
    (singleOp (updateSessionDoc (fr.Session))
      (change (tf.updateSession)
        (.obj [(("sessionToken"), getField arg ("sessionToken")),
               (("input"), removeField arg ("sessionToken"))])) run
      (fun result =>
        match fieldIdx result ("session") 0 with
        | .error e => .error e
        | .ok s0 => usJoin s0))

/-- `deleteSession(sessionToken)`: delete mutation, no resolved value. -/
def deleteSession (_fr : Fragments) (tf : Transformers) (run : Transport) (sessionToken : Value) : OpResult :=
  singleOp deleteSessionDoc
    (.obj [(("sessionToken"), change (tf.deleteSession) sessionToken)]) run
    (fun _ => .ok (.undefined))

/-- `createVerificationToken(input)`: add mutation; resolves with the formatted
acknowledgment. -/
def createVerificationToken (_fr : Fragments) (tf : Transformers) (run : Transport) (input : Value) : OpResult :=
  singleOp createVerificationTokenDoc
    (.obj [(("input"), change (tf.createVerificationToken) input)]) run
    (fun result => .ok (formatFrom result))

/-- `useVerificationToken(\x7bidentifier, token\x7d)`: delete mutation filtered
on both keys; resolves with the formatted `result.verificationToken[0]`, the
deleted token's prior value (or `null` when nothing matched). -/
def useVerificationToken (fr : Fragments) (tf : Transformers) (run : Transport) (params : Value) : OpResult :=
  singleOp (useVerificationTokenDoc (fr.VerificationToken))
    (change (tf.useVerificationToken) params) run
    (fun result =>
      match fieldIdx result ("verificationToken") 0 with
      | .error e => .error e
      | .ok t => .ok (formatFrom t))

/-! Configurations, transports and concrete inputs used by the theorems. -/

/-- The fragment-independent observation of an operation call: the variables of
every request it sent, and its outcome.  The documents are deliberately not
part of the observation — they are where the fragments are spliced. -/
def obs (p : OpResult) : List Value × Except String Value :=
  (p.1.map (fun r => r.vars), p.2)

/-- A transport whose behaviour depends only on the variables of a request,
never on the document text. -/
def varsT (g : Value → Except String Value) : Transport :=
  fun req => g (req.vars)

/-- A transformer configuration with a `createSession` transformer only. -/
def csTf (f : Value → Value) : Transformers :=
  ⟨none, none, none, none, none, none, none, none, none, some f, none, none, none, none⟩

/-- Modelled from the spec: whether a stored verification-token record matches
the `(identifier, token)` filter of the delete mutation.  The backend itself is
outside src/; the spec specifies the composite key `(identifier, token)`. -/
def vtMatches (vars r : Value) : Bool :=
  (match getField r ("identifier"), getField vars ("identifier") with
   | .str a, .str b => a == b
   | _, _ => false)
  &&
  (match getField r ("token"), getField vars ("token") with
   | .str a, .str b => a == b
   | _, _ => false)

/-- Modelled from the spec: a backend holding a store of verification-token
records, answering the delete mutation with the matching records (delete-on-read:
the records returned are exactly the ones removed from the store; the store
remaining after the call is `store.filter (fun r => ! vtMatches vars r)`). -/
def vtTransport (store : List Value) : Transport :=
  fun req => .ok (.obj [(("verificationToken"), .arr (store.filter (vtMatches (req.vars))))])

/-- A transport answering the first `deleteUser` request with `r1` and the
cascade request with outcome `e2`. -/
def twoPhaseTransport (r1 : Value) (e2 : Except String Value) : Transport :=
  fun req => cond (req.doc == deleteUserDoc) (.ok r1) e2

/-- Deleted-user payload with one owned Account and one owned Session. -/
def duRespUser (aid sid : String) : Value :=
  .obj [(("accounts"), .arr [.obj [(("id"), .str aid)]]),
        (("sessions"), .arr [.obj [(("id"), .str sid)]])]

/-- Response of the first `deleteUser` request for `duRespUser`. -/
def duResp1 (aid sid : String) (rest : List Value) : Value :=
  .obj [(("user"), .arr (duRespUser aid sid :: rest))]

/-- Transport where the first `deleteUser` request succeeds and the cascade
request rejects with a network error. -/
def c1cexT : Transport :=
  twoPhaseTransport (duResp1 ("a1") ("s1") []) (.error ("network"))

/-- The concrete `linkAccount` argument of the specified scenario. -/
def c2data : Value :=
  .obj [(("userId"), .str ("u1")), (("provider"), .str ("github")),
        (("providerAccountId"), .str ("42")), (("type"), .str ("oauth"))]

/-- A `createSession` transformer whose output is observably different from any
input object. -/
def c3hook : Value → Value := fun _ => .str ("hooked")

/-- Transformer configuration installing `c3hook` for `createSession`. -/
def c3tf : Transformers := csTf c3hook

/-- A concrete `createSession` argument. -/
def c3data : Value :=
  .obj [(("userId"), .str ("u1")), (("sessionToken"), .str ("tok")), (("expires"), .date 7)]

/-- A stored verification-token record. -/
def c5rec : Value :=
  .obj [(("identifier"), .str ("someone")), (("token"), .str ("tok1")), (("expires"), .date 9)]

/-- The `(identifier, token)` argument matching `c5rec`. -/
def c5params : Value :=
  .obj [(("identifier"), .str ("someone")), (("token"), .str ("tok1"))]

/-- A matched session record whose joined `user` field is null. -/
def c9s : Value := .obj [(("sessionToken"), .str ("st")), (("user"), .null)]

/-- A `createSession` transformer marking its input. -/
def c10f : Value → Value := fun v => setField v ("mark") (.bool true)

/-- A concrete `createSession` argument for the double-application theorem. -/
def c10data : Value := .obj [(("userId"), .str ("u1")), (("expires"), .date 3)]

/-! Helper lemmas. -/

/-- Property access on a nullish base throws. -/
theorem getF_of_nullish (v : Value) (k : String) (h : nullish v = true) :
    getF v k = .error jsTypeError := by
  simp [getF, h]

/-- Filtering with a predicate after keeping only its complement yields nothing. -/
theorem filter_not_filter {α : Type} (q : α → Bool) (l : List α) :
    (l.filter (fun r => ! q r)).filter q = [] := by
  induction l with
  | nil => rfl
  | cons a t ih => cases hq : q a <;> simp [List.filter_cons, hq, ih]

/-- A single-request operation run against a vars-only transport has the same
observation whatever document it carries. -/
theorem obs_singleOp (d d2 : String) (v : Value) (g : Value → Except String Value)
    (post : Value → Except String Value) :
    obs (singleOp d v (varsT g) post) = obs (singleOp d2 v (varsT g) post) := by
  simp only [singleOp, varsT]
  cases g v <;> rfl

/-! Claim theorems. -/

/-- Claim C6: for the single-entity lookups `getUser`, `getUserByAccount` and
`getSessionAndUser`, a not-found outcome is a resolved `null`, not a rejection:
when the backend reports no matching record (`null` for the by-id lookup, an
empty result list for the queries), each operation resolves with `null`. -/
theorem lookups_not_found_null (fr : Fragments) (tf : Transformers) (x : Value) :
    (getUser fr tf (fun _ => .ok (.null)) x).2 = .ok (.null)
    ∧ (getUserByAccount fr tf (fun _ => .ok (.arr [])) x).2 = .ok (.null)
    ∧ (getSessionAndUser fr tf (fun _ => .ok (.arr [])) x).2 = .ok (.null) :=
  ⟨rfl, rfl, rfl⟩

/-- Claim C7: `getUserByEmail` queries users by email equality and, whenever the
backend returns one or more matching records, resolves with the formatted first
element of the result list, silently ignoring the rest. -/
theorem getUserByEmail_first_match (fr : Fragments) (tf : Transformers)
    (email u : Value) (rest : List Value) :
    (getUserByEmail fr tf (fun _ => .ok (.arr (u :: rest))) email).2
      = .ok (formatFrom u) := rfl

/-- Claim C2: for every input object, `linkAccount` sends one add-account
mutation whose input is the argument with `userId` removed and a
`user: \x7b id: userId \x7d` relation injected, and resolves with the original
argument itself, whatever the server response is; in particular the concrete
scenario with userId "u1", provider "github", providerAccountId "42" and type
"oauth" sends `user: \x7b id: "u1" \x7d` and resolves with that same input. -/
theorem linkAccount_injects_user_returns_input :
    (∀ (fr : Fragments) (fs : List (String × Value)) (resp : Value),
      linkAccount fr noTransformers (fun _ => .ok resp) (.obj fs)
        = ([Request.mk (linkAccountDoc (fr.Account))
             (.obj [(("input"), injectUser (.obj fs))])],
           .ok (.obj fs)))
    ∧ linkAccount defaultFragments noTransformers (fun _ => .ok (.null)) c2data
        = ([Request.mk (linkAccountDoc (defaultFragments.Account))
             (.obj [(("input"),
               .obj [(("provider"), .str ("github")),
                     (("providerAccountId"), .str ("42")),
                     (("type"), .str ("oauth")),
                     (("user"), .obj [(("id"), .str ("u1"))])])])],
           .ok c2data) :=
  ⟨fun _ _ _ => rfl, rfl⟩

/-- Claim C4: whatever record the `updateSession` mutation yields, the
operation resolves with `null` exactly when the formatted updated record lacks
a truthy `session?.user?.id`, and otherwise with the formatted session carrying
`userId` set to the joined user's id — never with a partial session lacking
`userId`. -/
theorem updateSession_null_or_userId (fr : Fragments) (tf : Transformers)
    (fs : List (String × Value)) (ss : List Value) :
    (updateSession fr tf (fun _ => .ok (.obj [(("session"), .arr ss)])) (.obj fs)).2
      = cond (truthy (optChain (optChain (formatFrom (ss.getD 0 (.undefined))) ("user")) ("id")))
          (.ok (setField (formatFrom (ss.getD 0 (.undefined))) ("userId")
            (getField (getField (formatFrom (ss.getD 0 (.undefined))) ("user")) ("id"))))
          (.ok (.null)) := rfl

/-- Claim C5: `useVerificationToken` is delete-and-return.  Against a backend
store where exactly one record matches the `(identifier, token)` params, it
sends the delete mutation with those params as variables, resolves with the
deleted record's formatted prior value, and a second invocation against the
consumed store (the matching records removed) resolves with `null`. -/
theorem useVerificationToken_single_use (fr : Fragments) (store : List Value)
    (p r0 : Value) (h1 : store.filter (vtMatches p) = [r0]) :
    (useVerificationToken fr noTransformers (vtTransport store) p).1
      = [Request.mk (useVerificationTokenDoc (fr.VerificationToken)) p]
    ∧ (useVerificationToken fr noTransformers (vtTransport store) p).2
      = .ok (formatFrom r0)
    ∧ (useVerificationToken fr noTransformers
        (vtTransport (store.filter (fun r => ! vtMatches p r))) p).2 = .ok (.null) := by
  refine ⟨rfl, ?_, ?_⟩
  · have e1 : (useVerificationToken fr noTransformers (vtTransport store) p).2
        = .ok (formatFrom ((store.filter (vtMatches p)).getD 0 (.undefined))) := rfl
    rw [e1, h1]
    rfl
  · have e2 : (useVerificationToken fr noTransformers
        (vtTransport (store.filter (fun r => ! vtMatches p r))) p).2
        = .ok (formatFrom
            (((store.filter (fun r => ! vtMatches p r)).filter (vtMatches p)).getD 0 (.undefined))) := rfl
    rw [e2, filter_not_filter (vtMatches p) store]
    rfl

/-- Witness for C5 at a concrete store and params. -/
theorem useVerificationToken_single_use_witness :
    [c5rec].filter (vtMatches c5params) = [c5rec]
    ∧ ((useVerificationToken defaultFragments noTransformers (vtTransport [c5rec]) c5params).1
        = [Request.mk (useVerificationTokenDoc (defaultFragments.VerificationToken)) c5params]
      ∧ (useVerificationToken defaultFragments noTransformers (vtTransport [c5rec]) c5params).2
        = .ok (formatFrom c5rec)
      ∧ (useVerificationToken defaultFragments noTransformers
          (vtTransport ([c5rec].filter (fun r => ! vtMatches c5params r))) c5params).2
        = .ok (.null)) :=
  ⟨rfl, useVerificationToken_single_use defaultFragments [c5rec] c5params c5rec rfl⟩

/-- Claim C9: when `getSessionAndUser`'s query matches a session record whose
joined `user` field is null or absent, the operation throws (it reads `user.id`
unconditionally), rather than resolving with `null`; the `null` resolution
happens only when no session matched the token at all. -/
theorem getSessionAndUser_missing_user_throws (fr : Fragments) (tf : Transformers)
    (tok s : Value) (h1 : truthy s = true) (h2 : nullish (getField s ("user")) = true) :
    (getSessionAndUser fr tf (fun _ => .ok (.arr [s])) tok).2 = .error jsTypeError
    ∧ (getSessionAndUser fr tf (fun _ => .ok (.arr [])) tok).2 = .ok (.null) := by
  constructor
  · have e1 : (getSessionAndUser fr tf (fun _ => .ok (.arr [s])) tok).2 = gsuJoin s := rfl
    rw [e1]
    simp [gsuJoin, h1, getF_of_nullish (getField s ("user")) ("id") h2]
  · rfl

/-- Witness for C9 at a concrete matched record with a null user. -/
theorem getSessionAndUser_missing_user_throws_witness :
    truthy c9s = true
    ∧ nullish (getField c9s ("user")) = true
    ∧ ((getSessionAndUser defaultFragments noTransformers
          (fun _ => .ok (.arr [c9s])) (.str ("st"))).2 = .error jsTypeError
      ∧ (getSessionAndUser defaultFragments noTransformers
          (fun _ => .ok (.arr [])) (.str ("st"))).2 = .ok (.null)) :=
  ⟨rfl, rfl,
    getSessionAndUser_missing_user_throws defaultFragments noTransformers
      (.str ("st")) c9s rfl rfl⟩

/-- Claim C8: overriding fragments changes only the document text each
operation sends; against any transport whose behaviour depends only on the
request variables, every one of the fourteen operations sends the same
variables and produces the same outcome under any two fragment
configurations — input transformation and result normalization are unchanged. -/
theorem fragment_override_frame (fr fr2 : Fragments) (tf : Transformers)
    (g : Value → Except String Value) (x : Value) :
    obs (createUser fr tf (varsT g) x) = obs (createUser fr2 tf (varsT g) x)
    ∧ obs (getUser fr tf (varsT g) x) = obs (getUser fr2 tf (varsT g) x)
    ∧ obs (getUserByEmail fr tf (varsT g) x) = obs (getUserByEmail fr2 tf (varsT g) x)
    ∧ obs (getUserByAccount fr tf (varsT g) x) = obs (getUserByAccount fr2 tf (varsT g) x)
    ∧ obs (updateUser fr tf (varsT g) x) = obs (updateUser fr2 tf (varsT g) x)
    ∧ obs (deleteUser fr tf (varsT g) x) = obs (deleteUser fr2 tf (varsT g) x)
    ∧ obs (linkAccount fr tf (varsT g) x) = obs (linkAccount fr2 tf (varsT g) x)
    ∧ obs (unlinkAccount fr tf (varsT g) x) = obs (unlinkAccount fr2 tf (varsT g) x)
    ∧ obs (getSessionAndUser fr tf (varsT g) x) = obs (getSessionAndUser fr2 tf (varsT g) x)
    ∧ obs (createSession fr tf (varsT g) x) = obs (createSession fr2 tf (varsT g) x)
    ∧ obs (updateSession fr tf (varsT g) x) = obs (updateSession fr2 tf (varsT g) x)
    ∧ obs (deleteSession fr tf (varsT g) x) = obs (deleteSession fr2 tf (varsT g) x)
    ∧ obs (createVerificationToken fr tf (varsT g) x)
        = obs (createVerificationToken fr2 tf (varsT g) x)
    ∧ obs (useVerificationToken fr tf (varsT g) x)
        = obs (useVerificationToken fr2 tf (varsT g) x) := by
  refine ⟨?_, ?_, ?_, ?_, ?_, rfl, ?_, rfl, ?_, ?_, ?_, rfl, rfl, ?_⟩
  · exact obs_singleOp _ _ _ _ _
  · exact obs_singleOp _ _ _ _ _
  · exact obs_singleOp _ _ _ _ _
  · exact obs_singleOp _ _ _ _ _
  · simp only [updateUser]
    cases nullish x with
    | true => rfl
    | false => exact obs_singleOp _ _ _ _ _
  · simp only [linkAccount]
    cases nullish x with
    | true => rfl
    | false => exact obs_singleOp _ _ _ _ _
  · exact obs_singleOp _ _ _ _ _
  · simp only [createSession]
    cases nullish (csPre tf x) with
    | true => rfl
    | false => exact obs_singleOp _ _ _ _ _
  · simp only [updateSession]
    cases nullish x with
    | true => rfl
    | false => exact obs_singleOp _ _ _ _ _
  · exact obs_singleOp _ _ _ _ _

/-- Counterexample for C1: with a transport where the first `deleteUser`
request succeeds and the cascade request rejects, `deleteUser` rejects with the
cascade's error instead of resolving with the formatted user — the claim's
"a rejection of the second request does not prevent the caller from receiving
the successful user result" is false. -/
theorem deleteUser_cascade_rejection_cex :
    (deleteUser defaultFragments noTransformers c1cexT (.str ("u1"))).2 = .error ("network")
    ∧ (deleteUser defaultFragments noTransformers c1cexT (.str ("u1"))).2
        ≠ .ok (formatFrom (duRespUser ("a1") ("s1"))) := by
  constructor
  · rfl
  · intro h
    have h2 : (Except.error ("network") : Except String Value)
        = .ok (formatFrom (duRespUser ("a1") ("s1"))) := h
    exact Except.noConfusion h2

/-- Claim C1 (amended): `deleteUser` performs exactly two sequential requests —
the delete-User mutation capturing the owned Account and Session ids, then the
cascade mutation deleting them.  When the second request resolves, its resolved
value is discarded and the formatted user from the first response is returned
whatever that value was; but the second request is awaited without a catch, so
when it rejects, the rejection propagates and the caller does not receive the
user result. -/
theorem deleteUser_two_phase_outcome (fr : Fragments) (tf : Transformers) (id : Value)
    (aid sid : String) (rest : List Value) (e2 : Except String Value) :
    deleteUser fr tf (twoPhaseTransport (duResp1 aid sid rest) e2) id
      = ([Request.mk deleteUserDoc (.obj [(("id"), change (tf.deleteUser) id)]),
          Request.mk deleteCascadeDoc
            (.obj [(("sessions"), .arr [.str sid]), (("accounts"), .arr [.str aid])])],
         match e2 with
         | .ok _ => .ok (formatFrom (duRespUser aid sid))
         | .error e => .error e) := by
  cases e2 <;> rfl

/-- Counterexample for C3: with a `createSession` transformer configured, the
operation still resolves with the original argument, not with anything shaped
by the transformer's output — refuting "the hook's output determines the
returned value shape". -/
theorem createSession_hook_return_cex :
    (createSession defaultFragments c3tf (fun _ => .ok (.null)) c3data).2 = .ok c3data
    ∧ (createSession defaultFragments c3tf (fun _ => .ok (.null)) c3data).2
        ≠ .ok (c3hook c3data) := by
  constructor
  · rfl
  · intro h
    have h2 : (Except.ok c3data : Except String Value) = .ok (c3hook c3data) := h
    have h3 : c3data = c3hook c3data := by injection h2
    exact Value.noConfusion h3

/-- Claim C3 (amended): `createSession` injects a `user: \x7b id: userId \x7d`
relation derived from the (possibly transformed) input's `userId` into the
payload it sends, and resolves with the original input as-is; this holds even
when a `createSession` transformer is configured — the transformer shapes only
the sent payload, never the resolved value. -/
theorem createSession_returns_original_input (fr : Fragments) (tf : Transformers)
    (data resp : Value) (h : nullish (csPre tf data) = false) :
    createSession fr tf (fun _ => .ok resp) data
      = ([Request.mk (createSessionDoc (fr.Session))
           (.obj [(("input"), change (tf.createSession) (injectUser (csPre tf data)))])],
         .ok data) := by
  simp only [createSession, h]
  rfl

/-- Witness for C3 (amended) at a concrete transformer and input. -/
theorem createSession_returns_original_input_witness :
    nullish (csPre c3tf c3data) = false
    ∧ createSession defaultFragments c3tf (fun _ => .ok (.null)) c3data
        = ([Request.mk (createSessionDoc (defaultFragments.Session))
             (.obj [(("input"), change (c3tf.createSession) (injectUser (csPre c3tf c3data)))])],
           .ok c3data) :=
  ⟨rfl, createSession_returns_original_input defaultFragments c3tf c3data (.null) rfl⟩

/-- Claim C10: with a `createSession` transformer `f` configured, the payload
sent is `f` applied to the reconstruction of `f data` — that is
`f (injectUser (f data))`: the hook runs once to destructure `userId` and a
second time, through the generic `change` helper, on the payload with the user
relation injected; not a single application. -/
theorem createSession_double_transform (fr : Fragments) (f : Value → Value)
    (data resp : Value)
    (h1 : nullish (f data) = false)
    (h2 : nullish (f (injectUser (f data))) = false) :
    (createSession fr (csTf f) (fun _ => .ok resp) data).1
      = [Request.mk (createSessionDoc (fr.Session))
          (.obj [(("input"), f (injectUser (f data)))])] := by
  simp only [createSession, csPre, csTf, change, h1, h2]
  rfl

/-- Witness for C10 at a concrete transformer and input. -/
theorem createSession_double_transform_witness :
    nullish (c10f c10data) = false
    ∧ nullish (c10f (injectUser (c10f c10data))) = false
    ∧ (createSession defaultFragments (csTf c10f) (fun _ => .ok (.null)) c10data).1
        = [Request.mk (createSessionDoc (defaultFragments.Session))
            (.obj [(("input"), c10f (injectUser (c10f c10data)))])] :=
  ⟨rfl, rfl,
    createSession_double_transform defaultFragments c10f c10data (.null) rfl rfl⟩

end Dgraph
